import Mathlib

/-!
Verification of the `infra-ecommerce` repository against its specification.

Part 1 — the placeholder backend responder, a shallow embedding of
`container_images/backend/server.py`.

Part 2 — the deployment topology declared by
`infra_ecommerce/infra_ecommerce_stack.py`: security groups, listeners,
target groups and the CodeDeploy blue/green deployment groups, embedded as
concrete Lean values mirroring the constructor arguments in the source.

Part 3 — the topology validator described by the specification (the
repository itself contains no validation code; validation is delegated to
the CDK framework), modelled from the spec text.
-/

/-! ## Part 1: the placeholder backend responder (`server.py`) -/

/-- A process environment: an association list from variable names to values,
modelling `os.environ`. -/
abbrev Env := List (String × String)

/-- `os.environ.get(k)`: the value of variable `k`, if present. -/
def envGet (e : Env) (k : String) : Option String :=
  (e.find? (fun p => p.1 == k)).map (·.2)

/-- `os.environ.get(k, d)`: the value of `k`, or the default `d` if absent. -/
def getEnvD (e : Env) (k : String) (d : String) : String :=
  (envGet e k).getD d

/-- A JSON value as produced by `server.py`: either a string or a flat object
whose fields are strings (the only two shapes the code builds). -/
inductive JVal where
  | s (v : String)
  | o (fields : List (String × String))
deriving DecidableEq, Repr

/-- A JSON object body: an ordered field list, modelling the Python dict the
handler serialises with `json.dumps`. -/
abbrev JBody := List (String × JVal)

/-- Field lookup in a JSON object body. -/
def lookupField (b : JBody) (k : String) : Option JVal :=
  (b.find? (fun p => p.1 == k)).map (·.2)

/-- `build_response` from `server.py`: the fixed message plus the database
object whose fields come from `DB_HOST`, `DB_PORT`, `DB_NAME`, `DB_USERNAME`,
each falling back to the literal `"unset"`. -/
def build_response (env : Env) : JBody :=
  [("message", JVal.s "Ecommerce backend placeholder"),
   ("database", JVal.o
     [("host", getEnvD env "DB_HOST" "unset"),
      ("port", getEnvD env "DB_PORT" "unset"),
      ("name", getEnvD env "DB_NAME" "unset"),
      ("user", getEnvD env "DB_USERNAME" "unset")])]

/-- An HTTP response as assembled by `Handler._send_json`: status code, the
`Content-Type` header value, and the JSON body. -/
structure HttpResponse where
  status : Nat
  contentType : String
  body : JBody
deriving DecidableEq, Repr

/-- `Handler._send_json(payload, status)`: sets the status code and the
`Content-Type: application/json` header and writes the serialised payload. -/
def send_json (payload : JBody) (status : Nat) : HttpResponse :=
  ⟨status, "application/json", payload⟩

/-- The path set recognised by `Handler.do_GET`. -/
def recognizedPaths : List String := ["/", "/api", "/api/health", "/health"]

/-- `Handler.do_GET`: the recognised paths get a 200 with
`{"status": "ok", **build_response()}` (dict merge: `status` first, then the
fields of `build_response`); every other path gets a 404 with
`{"status": "not_found", "path": path}`.  The Python handler is total on any
path string, which this embedding reflects by being a total function. -/
def do_GET (env : Env) (path : String) : HttpResponse :=
  if path ∈ recognizedPaths then
    send_json (("status", JVal.s "ok") :: build_response env) 200
  else
    send_json [("status", JVal.s "not_found"), ("path", JVal.s path)] 404

/-! Python `int(...)` applied to a string, as used by `main` on
`os.environ.get("PORT", "4000")`: optional surrounding whitespace, an optional
sign, then a non-empty digit sequence in which single underscores may appear
between digits.  `none` models a raised `ValueError`. -/

/-- Whitespace stripped by Python `int()` around a numeric literal. -/
def isPyWs (c : Char) : Bool :=
  c == ' ' || c == '\t' || c == '\n' || c == '\x0d' || c == '\x0b' || c == '\x0c'

/-- Accumulate the remaining digits of a Python integer literal: each further
character is a digit, or an underscore that must be followed by a digit. -/
def pyDigitsAux (acc : Nat) : List Char → Option Nat
  | [] => some acc
  | c :: rest =>
    if c.isDigit then pyDigitsAux (acc * 10 + (c.toNat - 48)) rest
    else if c == '_' then
      match rest with
      | [] => none
      | d :: rest2 =>
        if d.isDigit then pyDigitsAux (acc * 10 + (d.toNat - 48)) rest2 else none
    else none

/-- A non-empty digit sequence (underscores allowed between digits). -/
def pyDigits : List Char → Option Nat
  | [] => none
  | c :: rest => if c.isDigit then pyDigitsAux (c.toNat - 48) rest else none

/-- Python `int(s)` for a string argument; `none` models `ValueError`. -/
def pyInt (s : String) : Option Int :=
  let cs := ((s.toList.dropWhile isPyWs).reverse.dropWhile isPyWs).reverse
  match cs with
  | '+' :: rest => (pyDigits rest).map Int.ofNat
  | '-' :: rest => (pyDigits rest).map (fun n => -(n : Int))
  | rest => (pyDigits rest).map Int.ofNat

/-- `main`'s listen port: `int(os.environ.get("PORT", "4000"))`.  `none` means
`int` raised before the `HTTPServer` socket is created. -/
def main_port (env : Env) : Option Int :=
  pyInt (getEnvD env "PORT" "4000")

/-! ## Part 2: the deployment topology (`infra_ecommerce_stack.py`)

Each definition below mirrors one resource construction in the stack, with
the same constructor arguments.  Symbolic runtime values (DNS names, secret
ARNs) are out of scope; only the statically declared configuration is
embedded. -/

/-- One `add_ingress_rule` call on a security group: the peer, TCP port and
description arguments. -/
structure IngressRule where
  peer : String
  port : Nat
  description : String
deriving DecidableEq, Repr

/-- An `ec2.SecurityGroup` with the ingress rules explicitly added to it. -/
structure SecurityGroup where
  name : String
  ingress : List IngressRule
deriving DecidableEq, Repr

/-- An `add_listener` call on an application load balancer: construct id,
port, the `open` keyword argument (here `isOpen`) and protocol. -/
structure Listener where
  id : String
  port : Nat
  isOpen : Bool
  protocol : String
deriving DecidableEq, Repr

/-- An `elbv2.HealthCheck` as configured in the stack: path, the
`healthy_http_codes` string, and the interval in seconds. -/
structure HealthCheck where
  path : String
  healthy_http_codes : String
  interval_seconds : Nat
deriving DecidableEq, Repr

/-- An `elbv2.ApplicationTargetGroup`: construct id, target port, protocol,
target type and health check. -/
structure TargetGroup where
  id : String
  port : Nat
  protocol : String
  target_type : String
  health_check : HealthCheck
deriving DecidableEq, Repr

/-- One `ecs.PortMapping` of a container definition. -/
structure PortMapping where
  container_port : Nat
deriving DecidableEq, Repr

/-- A container added to a task definition, keeping only its name and port
mappings (the fields the claims are about). -/
structure ContainerDef where
  name : String
  port_mappings : List PortMapping
deriving DecidableEq, Repr

/-- `codedeploy.AutoRollbackConfig(failed_deployment=..., stopped_deployment=...)`. -/
structure AutoRollbackConfig where
  failed_deployment : Bool
  stopped_deployment : Bool
deriving DecidableEq, Repr

/-- `codedeploy.EcsBlueGreenDeploymentConfig`: the blue/green target groups,
the production and test listeners, and the termination wait time. -/
structure EcsBlueGreenDeploymentConfig where
  blue_target_group : TargetGroup
  green_target_group : TargetGroup
  listener : Listener
  test_listener : Listener
  termination_wait_time_minutes : Nat
deriving DecidableEq, Repr

/-- The CodeDeploy ECS deployment configurations selectable in the CDK API;
the stack picks `ALL_AT_ONCE` for both services. -/
inductive EcsDeploymentConfiguration where
  | ALL_AT_ONCE
  | LINEAR_10PERCENT_EVERY_1MINUTES
  | LINEAR_10PERCENT_EVERY_3MINUTES
  | CANARY_10PERCENT_5MINUTES
  | CANARY_10PERCENT_15MINUTES
deriving DecidableEq, Repr

/-- A `codedeploy.EcsDeploymentGroup` as constructed in the stack. -/
structure EcsDeploymentGroup where
  id : String
  blue_green_deployment_config : EcsBlueGreenDeploymentConfig
  deployment_config : EcsDeploymentConfiguration
  auto_rollback : AutoRollbackConfig
deriving DecidableEq, Repr

/-- `fe_alb_sg`: public ALB security group for the frontend, with the one
explicit ingress rule added in the stack. -/
def fe_alb_sg : SecurityGroup :=
  ⟨"FeAlbSg", [⟨"any_ipv4", 80, "HTTP 80 public"⟩]⟩

/-- `be_alb_sg`: public ALB security group for the backend; the stack notes
that port 9000 is deliberately not opened. -/
def be_alb_sg : SecurityGroup :=
  ⟨"BeAlbSg", [⟨"any_ipv4", 80, "HTTP 80 public"⟩]⟩

/-- `fe_listener_prod = fe_alb.add_listener("FeListenerProd", port=80,
open=True, protocol=HTTP)`. -/
def fe_listener_prod : Listener := ⟨"FeListenerProd", 80, true, "HTTP"⟩

/-- `fe_listener_test = fe_alb.add_listener("FeListenerTest", port=9000,
open=False, protocol=HTTP)`. -/
def fe_listener_test : Listener := ⟨"FeListenerTest", 9000, false, "HTTP"⟩

/-- `be_listener_prod = be_alb.add_listener("BeListenerProd", port=80,
open=True, protocol=HTTP)`. -/
def be_listener_prod : Listener := ⟨"BeListenerProd", 80, true, "HTTP"⟩

/-- `be_listener_test = be_alb.add_listener("BeListenerTest", port=9000,
open=False, protocol=HTTP)`. -/
def be_listener_test : Listener := ⟨"BeListenerTest", 9000, false, "HTTP"⟩

/-- The listeners added to the frontend ALB. -/
def feAlbListeners : List Listener := [fe_listener_prod, fe_listener_test]

/-- The listeners added to the backend ALB. -/
def beAlbListeners : List Listener := [be_listener_prod, be_listener_test]

/-- The effective ingress rules of an ALB security group: the explicitly
added rules, plus the rule the CDK adds for each listener created with
`open=True` (any-IPv4 on the listener port). -/
def effectiveIngress (sg : SecurityGroup) (listeners : List Listener) : List IngressRule :=
  sg.ingress ++
    (listeners.filter (·.isOpen)).map (fun l => ⟨"any_ipv4", l.port, "open listener"⟩)

/-- A listener is publicly exposed when it was created with `open=True` and
its security group grants ingress on its port. -/
def listenerExposed (sg : SecurityGroup) (listeners : List Listener) (l : Listener) : Bool :=
  l.isOpen && (effectiveIngress sg listeners).any (fun r => r.port == l.port)

/-- `fe_container` with `add_port_mappings(PortMapping(container_port=3000))`. -/
def fe_container : ContainerDef := ⟨"FrontendContainer", [⟨3000⟩]⟩

/-- `be_container` with `add_port_mappings(PortMapping(container_port=4000))`. -/
def be_container : ContainerDef := ⟨"BackendContainer", [⟨4000⟩]⟩

/-- `fe_tg_prod`: frontend production target group, port 3000, health check
on `/` with `healthy_http_codes="200-399"` every 30 seconds. -/
def fe_tg_prod : TargetGroup :=
  ⟨"FeTgProdV3", 3000, "HTTP", "IP", ⟨"/", "200-399", 30⟩⟩

/-- `fe_tg_test`: frontend test (green) target group, same port and health
check as the production one. -/
def fe_tg_test : TargetGroup :=
  ⟨"FeTgTestV3", 3000, "HTTP", "IP", ⟨"/", "200-399", 30⟩⟩

/-- `be_tg_prod`: backend production target group, port 4000, health check
on `/health` with `healthy_http_codes="200-399"` every 30 seconds. -/
def be_tg_prod : TargetGroup :=
  ⟨"BeTgProdV3", 4000, "HTTP", "IP", ⟨"/health", "200-399", 30⟩⟩

/-- `be_tg_test`: backend test (green) target group, same port and health
check as the production one. -/
def be_tg_test : TargetGroup :=
  ⟨"BeTgTestV3", 4000, "HTTP", "IP", ⟨"/health", "200-399", 30⟩⟩

/-- `fe_dg`: the frontend CodeDeploy deployment group — blue = prod target
group, green = test target group, prod/test listeners, 5 minute termination
wait, `ALL_AT_ONCE`, rollback on failed and on stopped deployment. -/
def fe_dg : EcsDeploymentGroup :=
  ⟨"FrontendDeploymentGroup",
   ⟨fe_tg_prod, fe_tg_test, fe_listener_prod, fe_listener_test, 5⟩,
   EcsDeploymentConfiguration.ALL_AT_ONCE,
   ⟨true, true⟩⟩

/-- `be_dg`: the backend CodeDeploy deployment group, configured like the
frontend one but on the backend resources. -/
def be_dg : EcsDeploymentGroup :=
  ⟨"BackendDeploymentGroup",
   ⟨be_tg_prod, be_tg_test, be_listener_prod, be_listener_test, 5⟩,
   EcsDeploymentConfiguration.ALL_AT_ONCE,
   ⟨true, true⟩⟩

/-- The deployment groups produced by the stack, one per service. -/
def deploymentGroups : List EcsDeploymentGroup := [fe_dg, be_dg]

/-- Split a character list into the dash-separated groups of a
`healthy_http_codes` string. -/
def splitOnDash : List Char → List (List Char)
  | [] => [[]]
  | c :: rest =>
    let r := splitOnDash rest
    if c == '-' then [] :: r
    else
      match r with
      | [] => [[c]]
      | g :: gs => (c :: g) :: gs

/-- A non-empty all-digit character group read as a decimal number. -/
def decDigits? : List Char → Option Nat
  | [] => none
  | cs =>
    if cs.all (·.isDigit) then
      some (cs.foldl (fun a c => a * 10 + (c.toNat - 48)) 0)
    else none

/-- The accepted-status range denoted by a `healthy_http_codes` string of the
form `"low-high"` (or a single code, standing for the one-element range). -/
def codeRange (s : String) : Option (Nat × Nat) :=
  match (splitOnDash s.toList).map decDigits? with
  | [some x, some y] => some (x, y)
  | [some x] => some (x, x)
  | _ => none

/-! ## Part 3: the topology validator, modelled from the spec -/

/-- Modelled from the spec: a `ServiceSpec` (section 3) — name, container
port, health-check path, accepted status range, environment map, desired
replica count.  The repository contains no such data type under `src/`; the
stack hardcodes the two services. -/
structure ServiceSpec where
  name : String
  port : Nat
  health_path : String
  status_low : Nat
  status_high : Nat
  env : List (String × String)
  desired_count : Nat
deriving DecidableEq, Repr

/-- Modelled from the spec: a `RoutingRule` (section 3) — listener reference,
target group reference, optional path-pattern predicate, priority. -/
structure RoutingRule where
  listener : String
  target_group : String
  path_pattern : Option String
  priority : Nat
deriving DecidableEq, Repr

/-- Modelled from the spec: `ConfigurationError` (section 7), carrying the
name of the offending field. -/
inductive ConfigurationError where
  | invalidPortRange (field : String)
  | malformedStatusRange (field : String)
  | duplicatePriority (field : String)
  | missingTestListener (field : String)
deriving DecidableEq, Repr

/-- Modelled from the spec: validation of one `ServiceSpec` — port must lie
in `[1,65535]`, and the accepted status range must satisfy
`100 ≤ low ≤ high ≤ 599`; the error names the offending field. -/
def validateServiceSpec (s : ServiceSpec) : Except ConfigurationError Unit :=
  if 1 ≤ s.port ∧ s.port ≤ 65535 then
    if 100 ≤ s.status_low ∧ s.status_low ≤ s.status_high ∧ s.status_high ≤ 599 then
      Except.ok ()
    else
      Except.error (ConfigurationError.malformedStatusRange (s.name ++ ".statusRange"))
  else
    Except.error (ConfigurationError.invalidPortRange (s.name ++ ".port"))

/-- The first validation error among a list of `ServiceSpec`s, if any. -/
def specsError : List ServiceSpec → Option ConfigurationError
  | [] => none
  | s :: rest =>
    match validateServiceSpec s with
    | Except.error e => some e
    | Except.ok _ => specsError rest

/-- Modelled from the spec: the first rule that shares its listener and its
priority with a later rule, if any (two rules with the same priority on the
same listener are a configuration error). -/
def findDupPriority : List RoutingRule → Option RoutingRule
  | [] => none
  | r :: rest =>
    if rest.any (fun q => q.listener == r.listener && q.priority == r.priority) then
      some r
    else
      findDupPriority rest

/-- Modelled from the spec: the validated resource plan the topology model
emits for the provisioning engine. -/
structure TopologyPlan where
  services : List ServiceSpec
  rules : List RoutingRule
deriving DecidableEq, Repr

/-- Modelled from the spec: topology validation — validate every
`ServiceSpec`, then check routing-rule priorities; only when every check
passes is a plan emitted, so an error means no partial plan. -/
def buildTopology (specs : List ServiceSpec) (rules : List RoutingRule) :
    Except ConfigurationError TopologyPlan :=
  match specsError specs with
  | some e => Except.error e
  | none =>
    match findDupPriority rules with
    | some r =>
      Except.error (ConfigurationError.duplicatePriority (r.listener ++ ".priority"))
    | none => Except.ok ⟨specs, rules⟩

/-- The `k` entry of the `database` object in the responder's body, if the
body carries one. -/
def dbField (env : Env) (k : String) : Option String :=
  match lookupField (build_response env) "database" with
  | some (JVal.o fields) => (fields.find? (fun p => p.1 == k)).map (·.2)
  | _ => none

/-! ## Theorems -/

/-- C1: every GET on one of `/`, `/api`, `/api/health`, `/health` returns
status 200 with Content-Type `application/json` and a body holding exactly
the fields `status = "ok"`, the fixed `message`, and `database` with exactly
the fields `host`, `port`, `name`, `user` read from `DB_HOST`, `DB_PORT`,
`DB_NAME`, `DB_USERNAME`. -/
theorem c1_recognized_paths_ok (env : Env) (path : String)
    (h : path ∈ recognizedPaths) :
    do_GET env path =
      ⟨200, "application/json",
       [("status", JVal.s "ok"),
        ("message", JVal.s "Ecommerce backend placeholder"),
        ("database", JVal.o
          [("host", getEnvD env "DB_HOST" "unset"),
           ("port", getEnvD env "DB_PORT" "unset"),
           ("name", getEnvD env "DB_NAME" "unset"),
           ("user", getEnvD env "DB_USERNAME" "unset")])]⟩ := by
  simp [do_GET, send_json, build_response, h]

/-- Witness for C1 at the path `/api/health` and an environment that sets
only `DB_HOST`. -/
theorem c1_recognized_paths_ok_witness :
    do_GET [("DB_HOST", "db.example")] "/api/health" =
      ⟨200, "application/json",
       [("status", JVal.s "ok"),
        ("message", JVal.s "Ecommerce backend placeholder"),
        ("database", JVal.o
          [("host", "db.example"), ("port", "unset"),
           ("name", "unset"), ("user", "unset")])]⟩ :=
  (c1_recognized_paths_ok [("DB_HOST", "db.example")] "/api/health"
    (by decide)).trans (by decide)

/-- C2: every GET on a path outside the recognised set returns status 404
with a JSON body whose `status` field is `"not_found"` and whose `path`
field echoes the requested path exactly; the handler is a total function on
paths, so no exception reaches the caller. -/
theorem c2_unrecognized_not_found (env : Env) (path : String)
    (h : path ∉ recognizedPaths) :
    do_GET env path =
      ⟨404, "application/json",
       [("status", JVal.s "not_found"), ("path", JVal.s path)]⟩ := by
  simp [do_GET, send_json, h]

/-- Witness for C2 at the path `/nope`. -/
theorem c2_unrecognized_not_found_witness :
    do_GET [] "/nope" =
      ⟨404, "application/json",
       [("status", JVal.s "not_found"), ("path", JVal.s "/nope")]⟩ :=
  c2_unrecognized_not_found [] "/nope" (by decide)

/-- C3: for both blue/green services, the ALB has exactly one non-exposed
listener, it is the test listener wired into the deployment group, it was
created with `open=False` and its security group grants no ingress on its
port (9000), while the production listener was created with `open=True` and
has ingress on its port. -/
theorem c3_test_listener_not_exposed :
    (feAlbListeners.filter
       (fun l => !(listenerExposed fe_alb_sg feAlbListeners l))) = [fe_listener_test] ∧
    fe_dg.blue_green_deployment_config.test_listener = fe_listener_test ∧
    fe_listener_test.isOpen = false ∧
    ((effectiveIngress fe_alb_sg feAlbListeners).any
       (fun r => r.port == fe_listener_test.port)) = false ∧
    fe_listener_prod.isOpen = true ∧
    listenerExposed fe_alb_sg feAlbListeners fe_listener_prod = true ∧
    (beAlbListeners.filter
       (fun l => !(listenerExposed be_alb_sg beAlbListeners l))) = [be_listener_test] ∧
    be_dg.blue_green_deployment_config.test_listener = be_listener_test ∧
    be_listener_test.isOpen = false ∧
    ((effectiveIngress be_alb_sg beAlbListeners).any
       (fun r => r.port == be_listener_test.port)) = false ∧
    be_listener_prod.isOpen = true ∧
    listenerExposed be_alb_sg beAlbListeners be_listener_prod = true := by
  decide

/-- C4: every deployment group produced by the stack enables both the
on-failed-deployment and the on-stopped-deployment rollback triggers, waits
5 minutes before terminating the old target after cutover, and shifts
traffic all at once. -/
theorem c4_deployment_plan_rollback (dg : EcsDeploymentGroup)
    (h : dg ∈ deploymentGroups) :
    dg.auto_rollback.failed_deployment = true ∧
    dg.auto_rollback.stopped_deployment = true ∧
    dg.blue_green_deployment_config.termination_wait_time_minutes = 5 ∧
    dg.deployment_config = EcsDeploymentConfiguration.ALL_AT_ONCE := by
  fin_cases h <;> exact ⟨rfl, rfl, rfl, rfl⟩

/-- Witness for C4 at the frontend deployment group. -/
theorem c4_deployment_plan_rollback_witness :
    fe_dg.auto_rollback.failed_deployment = true ∧
    fe_dg.auto_rollback.stopped_deployment = true ∧
    fe_dg.blue_green_deployment_config.termination_wait_time_minutes = 5 ∧
    fe_dg.deployment_config = EcsDeploymentConfiguration.ALL_AT_ONCE :=
  c4_deployment_plan_rollback fe_dg (by decide)

/-- C5: in both target-group pairs, blue and green are distinct, both use
their service's container port (3000 frontend, 4000 backend, matching the
port mappings), both share one health-check configuration, and every
configured accepted-status range lies within `[100, 599]` with low ≤ high. -/
theorem c5_target_group_pairs :
    fe_dg.blue_green_deployment_config.blue_target_group ≠
      fe_dg.blue_green_deployment_config.green_target_group ∧
    be_dg.blue_green_deployment_config.blue_target_group ≠
      be_dg.blue_green_deployment_config.green_target_group ∧
    fe_tg_prod.port = 3000 ∧ fe_tg_test.port = 3000 ∧
    fe_container.port_mappings = [⟨3000⟩] ∧
    be_tg_prod.port = 4000 ∧ be_tg_test.port = 4000 ∧
    be_container.port_mappings = [⟨4000⟩] ∧
    fe_tg_prod.health_check = fe_tg_test.health_check ∧
    be_tg_prod.health_check = be_tg_test.health_check ∧
    (∃ lo hi, codeRange fe_tg_prod.health_check.healthy_http_codes = some (lo, hi) ∧
       100 ≤ lo ∧ lo ≤ hi ∧ hi ≤ 599) ∧
    (∃ lo hi, codeRange be_tg_prod.health_check.healthy_http_codes = some (lo, hi) ∧
       100 ≤ lo ∧ lo ≤ hi ∧ hi ≤ 599) := by
  refine ⟨by decide, by decide, rfl, rfl, rfl, rfl, rfl, rfl, rfl, rfl,
    ⟨200, 399, by decide⟩, ⟨200, 399, by decide⟩⟩

/-- Witness for C5: the frontend blue and green target groups are distinct
concrete values. -/
theorem c5_target_group_pairs_witness :
    fe_dg.blue_green_deployment_config.blue_target_group ≠
      fe_dg.blue_green_deployment_config.green_target_group :=
  c5_target_group_pairs.1

/-- C6: a missing `DB_HOST`, `DB_PORT`, `DB_NAME` or `DB_USERNAME` makes the
corresponding `database` field of the responder body the literal `"unset"`;
absence is never an error (the lookup is total). -/
theorem c6_missing_env_unset (env : Env) :
    (envGet env "DB_HOST" = none → dbField env "host" = some "unset") ∧
    (envGet env "DB_PORT" = none → dbField env "port" = some "unset") ∧
    (envGet env "DB_NAME" = none → dbField env "name" = some "unset") ∧
    (envGet env "DB_USERNAME" = none → dbField env "user" = some "unset") := by
  refine ⟨fun h => ?_, fun h => ?_, fun h => ?_, fun h => ?_⟩ <;>
    simp [dbField, lookupField, build_response, getEnvD, h, List.find?]

/-- Witness for C6 in the empty environment. -/
theorem c6_missing_env_unset_witness :
    dbField [] "host" = some "unset" ∧ dbField [] "port" = some "unset" ∧
    dbField [] "name" = some "unset" ∧ dbField [] "user" = some "unset" :=
  ⟨(c6_missing_env_unset []).1 rfl, (c6_missing_env_unset []).2.1 rfl,
   (c6_missing_env_unset []).2.2.1 rfl, (c6_missing_env_unset []).2.2.2 rfl⟩

/-- C7: the listen port is `int` of the `PORT` environment variable when it
is set, and 4000 when `PORT` is absent. -/
theorem c7_listen_port (env : Env) :
    (∀ v, envGet env "PORT" = some v → main_port env = pyInt v) ∧
    (envGet env "PORT" = none → main_port env = some 4000) := by
  constructor
  · intro v h
    simp [main_port, getEnvD, h]
  · intro h
    simp only [main_port, getEnvD, h, Option.getD]
    decide

/-- Witness for C7: `PORT=8080` listens on 8080; no `PORT` listens
on 4000. -/
theorem c7_listen_port_witness :
    main_port [("PORT", "8080")] = some 8080 ∧ main_port [] = some 4000 :=
  ⟨((c7_listen_port [("PORT", "8080")]).1 "8080" rfl).trans (by decide),
   (c7_listen_port []).2 rfl⟩

/-- When some member of the spec list fails validation, the list as a whole
reports a validation error. -/
theorem specsError_of_mem_error {specs : List ServiceSpec} {s : ServiceSpec}
    {e0 : ConfigurationError} (hmem : s ∈ specs)
    (herr : validateServiceSpec s = Except.error e0) :
    ∃ e, specsError specs = some e := by
  induction specs with
  | nil => cases hmem
  | cons s0 rest ih =>
    rcases List.mem_cons.mp hmem with h | h
    · exact ⟨e0, by simp [specsError, ← h, herr]⟩
    · cases hv : validateServiceSpec s0 with
      | error e1 => exact ⟨e1, by simp [specsError, hv]⟩
      | ok u =>
        rcases ih h with ⟨e, he⟩
        exact ⟨e, by simp [specsError, hv, he]⟩

/-- Two distinct rules with the same listener and the same priority make the
duplicate-priority search succeed. -/
theorem findDupPriority_isSome {rules : List RoutingRule} {r q : RoutingRule}
    (hr : r ∈ rules) (hq : q ∈ rules) (hne : r ≠ q)
    (hl : r.listener = q.listener) (hp : r.priority = q.priority) :
    ∃ x, findDupPriority rules = some x := by
  induction rules with
  | nil => cases hr
  | cons y rest ih =>
    by_cases hc :
      (rest.any fun z => z.listener == y.listener && z.priority == y.priority) = true
    · exact ⟨y, by simp [findDupPriority, hc]⟩
    · have hcf :
          (rest.any fun z => z.listener == y.listener && z.priority == y.priority) = false :=
        by simpa using hc
      rcases List.mem_cons.mp hr with h1 | h1
      · rcases List.mem_cons.mp hq with h2 | h2
        · exact absurd (h1.trans h2.symm) hne
        · exfalso
          have hq' :
              (rest.any fun z => z.listener == y.listener && z.priority == y.priority) = true := by
            refine List.any_eq_true.mpr ⟨q, h2, ?_⟩
            simp [← h1, hl, hp]
          rw [hq'] at hcf
          cases hcf
      · rcases List.mem_cons.mp hq with h2 | h2
        · exfalso
          have hr' :
              (rest.any fun z => z.listener == y.listener && z.priority == y.priority) = true := by
            refine List.any_eq_true.mpr ⟨r, h1, ?_⟩
            simp [← h2, hl, hp]
          rw [hr'] at hcf
          cases hcf
        · rcases ih h1 h2 with ⟨x, hx⟩
          exact ⟨x, by simp [findDupPriority, hcf, hx]⟩

/-- C8: in the spec-modelled topology validator, a ServiceSpec port outside
`[1,65535]` makes validation fail with a `ConfigurationError` naming the
offending field, two RoutingRules of identical priority on one listener make
validation fail, and in either case no plan is emitted. -/
theorem c8_topology_validation_fails :
    (∀ (specs : List ServiceSpec) (rules : List RoutingRule) (s : ServiceSpec),
       s ∈ specs → ¬(1 ≤ s.port ∧ s.port ≤ 65535) →
       validateServiceSpec s =
         Except.error (ConfigurationError.invalidPortRange (s.name ++ ".port")) ∧
       ∃ e, buildTopology specs rules = Except.error e ∧
         ∀ p, buildTopology specs rules ≠ Except.ok p) ∧
    (∀ (specs : List ServiceSpec) (rules : List RoutingRule) (r q : RoutingRule),
       r ∈ rules → q ∈ rules → r ≠ q →
       r.listener = q.listener → r.priority = q.priority →
       ∃ e, buildTopology specs rules = Except.error e ∧
         ∀ p, buildTopology specs rules ≠ Except.ok p) := by
  constructor
  · intro specs rules s hmem hbad
    have hv : validateServiceSpec s =
        Except.error (ConfigurationError.invalidPortRange (s.name ++ ".port")) := by
      simp [validateServiceSpec, hbad]
    refine ⟨hv, ?_⟩
    rcases specsError_of_mem_error hmem hv with ⟨e, he⟩
    have hb : buildTopology specs rules = Except.error e := by
      simp [buildTopology, he]
    exact ⟨e, hb, fun p hp => by rw [hb] at hp; cases hp⟩
  · intro specs rules r q hr hq hne hl hp
    cases hse : specsError specs with
    | some e =>
      have hb : buildTopology specs rules = Except.error e := by
        simp [buildTopology, hse]
      exact ⟨e, hb, fun p hpl => by rw [hb] at hpl; cases hpl⟩
    | none =>
      rcases findDupPriority_isSome hr hq hne hl hp with ⟨x, hx⟩
      have hb : buildTopology specs rules =
          Except.error
            (ConfigurationError.duplicatePriority (x.listener ++ ".priority")) := by
        simp [buildTopology, hse, hx]
      exact ⟨_, hb, fun p hpl => by rw [hb] at hpl; cases hpl⟩

/-- Witness for C8: a spec with port 0, and two rules of priority 10 on one
listener, each make `buildTopology` fail with no plan. -/
theorem c8_topology_validation_fails_witness :
    (∃ e, buildTopology [⟨"svc", 0, "/", 200, 399, [], 1⟩] [] = Except.error e ∧
       ∀ p, buildTopology [⟨"svc", 0, "/", 200, 399, [], 1⟩] [] ≠ Except.ok p) ∧
    (∃ e, buildTopology []
        [⟨"L", "tg1", none, 10⟩, ⟨"L", "tg2", some "/api", 10⟩] = Except.error e ∧
       ∀ p, buildTopology []
        [⟨"L", "tg1", none, 10⟩, ⟨"L", "tg2", some "/api", 10⟩] ≠ Except.ok p) := by
  constructor
  · exact (c8_topology_validation_fails.1 [⟨"svc", 0, "/", 200, 399, [], 1⟩] []
      ⟨"svc", 0, "/", 200, 399, [], 1⟩ (by decide) (by decide)).2
  · exact c8_topology_validation_fails.2 []
      [⟨"L", "tg1", none, 10⟩, ⟨"L", "tg2", some "/api", 10⟩]
      ⟨"L", "tg1", none, 10⟩ ⟨"L", "tg2", some "/api", 10⟩
      (by decide) (by decide) (by decide) rfl rfl

/-- C9: the 404 response is independent of the environment — two arbitrary
environments yield identical responses on the same unrecognised path — and
its body carries only the `status` and `path` fields, never any database
configuration. -/
theorem c9_not_found_env_independent (env1 env2 : Env) (path : String)
    (h : path ∉ recognizedPaths) :
    do_GET env1 path = do_GET env2 path ∧
    (do_GET env1 path).body.map Prod.fst = ["status", "path"] := by
  constructor <;> simp [do_GET, send_json, h]

/-- Witness for C9 at the path `/secret` and two differing environments. -/
theorem c9_not_found_env_independent_witness :
    do_GET [("DB_HOST", "a")] "/secret" = do_GET [] "/secret" ∧
    (do_GET [("DB_HOST", "a")] "/secret").body.map Prod.fst = ["status", "path"] :=
  c9_not_found_env_independent [("DB_HOST", "a")] [] "/secret" (by decide)

/-- C10: when `PORT` is set to a string on which Python `int` fails, `main`
raises before a listening socket exists (`main_port` is `none`), so startup
is total only when `PORT`, if present, parses as an integer. -/
theorem c10_bad_port_string_raises (env : Env) (v : String)
    (h1 : envGet env "PORT" = some v) (h2 : pyInt v = none) :
    main_port env = none := by
  simp [main_port, getEnvD, h1, h2]

/-- Witness for C10 with `PORT=not-a-number`. -/
theorem c10_bad_port_string_raises_witness :
    main_port [("PORT", "not-a-number")] = none :=
  c10_bad_port_string_raises [("PORT", "not-a-number")] "not-a-number" rfl (by decide)
